import Mathlib

/-!
Verification of `src/nanobot/agent/tools/supabase_leads.py`.

This file shallowly embeds the lead classification, report rendering,
lookup matching and credential handling of the two tools
(`SupabaseLeadsReportTool.execute`, `LeadLookupTool.execute`) and the
timestamp helper `_parse_dt`, and proves/refutes the specification
claims about them.

Modelling conventions:
* Python `datetime` values are `PyDateTime`: a wall-clock reading in
  microseconds since the Unix epoch together with an optional UTC
  offset (`none` = offset-naive).  Comparing or subtracting a naive and
  an aware datetime raises `TypeError` in Python; those operations are
  therefore `Except Unit`-valued (`.error ()` = uncaught exception).
* `datetime.fromisoformat` (Python 3.11 semantics) is modelled for the
  extended ISO-8601 format the tool receives:
  `YYYY-MM-DD[<sep>HH:MM[:SS[.f{1,6}]][±HH:MM]]`
  with full range validation against the proleptic Gregorian calendar.
* JSON field values are `JVal`; a JSON `null` and an absent key are
  merged where the code's defaults make them observationally equal for
  every claim under study (noted at each field).
* Python's `list.sort` / `sorted` are stable; a stable sort by key is
  extensionally unique, so they are modelled by `List.insertionSort`
  (stable) with the corresponding key order.
* The two HTTP fetches are external inputs: the leads fetch is an
  `Except String (List Lead)` (`.error` = the caught exception text),
  the notes fetch a `FetchOutcome` (status code + parsed body, or
  `.failure` for a raised exception / malformed body / timeout).
-/

/-- A JSON scalar as stored in a fetched record field.  `null` stands for
both an explicitly-null field and (where observationally equal) a missing
key. -/
inductive JVal where
  | null
  | jstr (s : String)
  | jnum (n : Int)
  | jbool (b : Bool)
deriving DecidableEq

/-- Python truthiness of a `JVal` (`if val:`). -/
def jTruthy : JVal → Bool
  | .null => false
  | .jstr s => s ≠ ""
  | .jnum n => n ≠ 0
  | .jbool b => b

/-- Python `f"{val}"` rendering of a `JVal`. -/
def jTextOf : JVal → String
  | .null => "None"
  | .jstr s => s
  | .jnum n => toString n
  | .jbool b => if b then "True" else "False"

/-- Python `datetime`: wall-clock microseconds since the epoch plus an
optional UTC offset in microseconds (`none` = offset-naive). -/
structure PyDateTime where
  wall : Int
  tz : Option Int
deriving DecidableEq

/-- Microseconds per day. -/
def usPerDay : Int := 86400000000

/-- The absolute instant of an aware datetime (UTC = wall − offset); for a
naive datetime this reads the wall clock as if it were UTC. -/
def awareInstant (t : PyDateTime) : Int := t.wall - t.tz.getD 0

/-- Python `a >= b` on datetimes: comparing naive with aware raises
`TypeError`. -/
def pyGE (a b : PyDateTime) : Except Unit Bool :=
  match a.tz, b.tz with
  | some oa, some ob => .ok (decide (a.wall - oa ≥ b.wall - ob))
  | none, none => .ok (decide (a.wall ≥ b.wall))
  | _, _ => .error ()

/-- Python `a < b` on datetimes: comparing naive with aware raises
`TypeError`. -/
def pyLT (a b : PyDateTime) : Except Unit Bool :=
  match a.tz, b.tz with
  | some oa, some ob => .ok (decide (a.wall - oa < b.wall - ob))
  | none, none => .ok (decide (a.wall < b.wall))
  | _, _ => .error ()

/-- Python `a - b` on datetimes (a `timedelta` in microseconds); mixing
naive and aware raises `TypeError`. -/
def pySub (a b : PyDateTime) : Except Unit Int :=
  match a.tz, b.tz with
  | some oa, some ob => .ok ((a.wall - oa) - (b.wall - ob))
  | none, none => .ok (a.wall - b.wall)
  | _, _ => .error ()

/-- `timedelta.days`: floor division of the microsecond span by one day. -/
def tdDays (us : Int) : Int := Int.fdiv us usPerDay

/-! ### Calendar arithmetic (proleptic Gregorian, as used by `datetime`) -/

/-- Gregorian leap-year test. -/
def isLeapYear (y : Nat) : Bool :=
  y % 4 = 0 && (y % 100 ≠ 0 || y % 400 = 0)

/-- Days in a month of a given year. -/
def daysInMonth (y m : Nat) : Nat :=
  if m = 2 then (if isLeapYear y then 29 else 28)
  else if m = 4 || m = 6 || m = 9 || m = 11 then 30
  else 31

/-- Days from the epoch (1970-01-01) to the given civil date (standard
days-from-civil algorithm). -/
def daysFromCivil (y m d : Int) : Int :=
  let y2 : Int := if m ≤ 2 then y - 1 else y
  let era : Int := Int.fdiv y2 400
  let yoe : Int := y2 - era * 400
  let doy : Int := Int.fdiv (153 * (m + (if m > 2 then -3 else 9)) + 2) 5 + d - 1
  let doe : Int := yoe * 365 + Int.fdiv yoe 4 - Int.fdiv yoe 100 + doy
  era * 146097 + doe - 719468

/-- Civil date `(y, m, d)` of a day count from the epoch (standard
civil-from-days algorithm). -/
def civilFromDays (z0 : Int) : Int × Int × Int :=
  let z := z0 + 719468
  let era : Int := Int.fdiv z 146097
  let doe : Int := z - era * 146097
  let yoe : Int := Int.fdiv (doe - Int.fdiv doe 1460 + Int.fdiv doe 36524 - Int.fdiv doe 146096) 365
  let y : Int := yoe + era * 400
  let doy : Int := doe - (365 * yoe + Int.fdiv yoe 4 - Int.fdiv yoe 100)
  let mp : Int := Int.fdiv (5 * doy + 2) 153
  let d : Int := doy - Int.fdiv (153 * mp + 2) 5 + 1
  let m : Int := mp + (if mp < 10 then 3 else -9)
  (y + (if m ≤ 2 then 1 else 0), m, d)

/-! ### String helpers mirroring the Python string methods

They are written over `List Char` by structural recursion so that every
claim witness can be evaluated by the kernel. -/

/-- `needle` occurs as a contiguous substring of the list (Python
`needle in hay`). -/
def infixOfL (needle : List Char) : List Char → Bool
  | [] => needle.isEmpty
  | c :: rest => needle.isPrefixOf (c :: rest) || infixOfL needle rest

/-- Python `needle in hay` on strings. -/
def strContains (hay needle : String) : Bool :=
  infixOfL needle.toList hay.toList

/-- One fuel-indexed step list for Python `str.replace` (non-overlapping,
left-to-right, replace all).  Fuel = input length suffices because every
step consumes at least one character. -/
def replaceFuel (pat rep : List Char) : Nat → List Char → List Char
  | 0, l => l
  | _ + 1, [] => []
  | n + 1, c :: rest =>
    if pat.isPrefixOf (c :: rest) then
      rep ++ replaceFuel pat rep n ((c :: rest).drop pat.length)
    else
      c :: replaceFuel pat rep n rest

/-- Python `s.replace(pat, rep)` for a nonempty pattern (the tool only
replaces the nonempty patterns `"Z"`, `"+91"`, `" "`, `"-"`). -/
def pyReplace (s pat rep : String) : String :=
  if pat = "" then s
  else ⟨replaceFuel pat.toList rep.toList s.toList.length s.toList⟩

/-- Whitespace stripped by Python `str.strip()` (ASCII subset; the
records under study carry no exotic Unicode whitespace). -/
def isPySpace (c : Char) : Bool :=
  c == ' ' || c == '\t' || c == '\n' || c == '\r' || c == '\x0b' || c == '\x0c'

/-- Python `s.strip()`. -/
def pyStrip (s : String) : String :=
  ⟨((s.toList.dropWhile isPySpace).reverse.dropWhile isPySpace).reverse⟩

/-- Python `s.lower()` (ASCII case mapping; all comparisons in the tool
are against ASCII literals). -/
def pyLower (s : String) : String := ⟨s.toList.map Char.toLower⟩

/-- Python `s[:n]`. -/
def pyTake (s : String) (n : Nat) : String := ⟨s.toList.take n⟩

/-! ### `datetime.fromisoformat` (the format subset the tool receives) -/

/-- Numeric value of a decimal digit character. -/
def dig (c : Char) : Option Nat :=
  if c.isDigit then some (c.toNat - 48) else none

/-- Parse a trailing UTC offset `±HH:MM` (or nothing → naive), in
microseconds; offsets must be strictly inside ±24 h as in Python. -/
def parseOffset : List Char → Option (Option Int)
  | [] => some (none : Option Int)
  | ['+', h1, h2, ':', m1, m2] => do
    let a ← dig h1; let b ← dig h2; let c ← dig m1; let d ← dig m2
    let hh := a * 10 + b; let mm := c * 10 + d
    if hh ≤ 23 && mm ≤ 59 then
      some (some (((hh * 3600 + mm * 60 : Nat) : Int) * 1000000))
    else none
  | ['-', h1, h2, ':', m1, m2] => do
    let a ← dig h1; let b ← dig h2; let c ← dig m1; let d ← dig m2
    let hh := a * 10 + b; let mm := c * 10 + d
    if hh ≤ 23 && mm ≤ 59 then
      some (some (-(((hh * 3600 + mm * 60 : Nat) : Int) * 1000000)))
    else none
  | _ => none

/-- Greedily take decimal digits from the front. -/
def takeDigits : List Char → List Nat × List Char
  | [] => ([], [])
  | c :: rest =>
    if c.isDigit then
      let (ds, r) := takeDigits rest
      ((c.toNat - 48) :: ds, r)
    else ([], c :: rest)

/-- Scale 1–6 fractional-second digits to microseconds. -/
def fracMicro (ds : List Nat) : Option Nat :=
  if ds.length = 0 || 6 < ds.length then none
  else some ((ds.foldl (fun a d => a * 10 + d) 0) * 10 ^ (6 - ds.length))

/-- Parse `.ffffff` then an optional offset. -/
def parseFracOff (cs : List Char) : Option (Nat × Option Int) := do
  let (ds, rest) := takeDigits cs
  let micro ← fracMicro ds
  let off ← parseOffset rest
  pure (micro, off)

/-- Parse `HH:MM[:SS[.frac]][offset]`. -/
def parseTimePart : List Char → Option (Nat × Nat × Nat × Nat × Option Int)
  | h1 :: h2 :: ':' :: m1 :: m2 :: rest => do
    let a ← dig h1; let b ← dig h2; let c ← dig m1; let d ← dig m2
    let hh := a * 10 + b; let mm := c * 10 + d
    match rest with
    | [] => pure (hh, mm, 0, 0, (none : Option Int))
    | ':' :: s1 :: s2 :: rest2 => do
      let e ← dig s1; let f ← dig s2
      let ss := e * 10 + f
      match rest2 with
      | '.' :: rest3 => do
        let (micro, off) ← parseFracOff rest3
        pure (hh, mm, ss, micro, off)
      | _ => do
        let off ← parseOffset rest2
        pure (hh, mm, ss, 0, off)
    | _ => do
      let off ← parseOffset rest
      pure (hh, mm, 0, 0, off)
  | _ => none

/-- Assemble a validated datetime. -/
def mkDT (y mo d h mi s micro : Nat) (tz : Option Int) : Option PyDateTime :=
  if 1 ≤ y && y ≤ 9999 && 1 ≤ mo && mo ≤ 12 && 1 ≤ d && d ≤ daysInMonth y mo
      && h ≤ 23 && mi ≤ 59 && s ≤ 59 then
    some ⟨(daysFromCivil y mo d * 86400 + (h * 3600 + mi * 60 + s : Nat)) * 1000000 + micro, tz⟩
  else none

/-- `datetime.fromisoformat` on the extended format
`YYYY-MM-DD[<sep>time]`; per Python 3.11 the date/time separator may be
any single character.  A string with no offset yields a NAIVE datetime. -/
def fromisoformat (s : String) : Option PyDateTime :=
  match s.toList with
  | y1 :: y2 :: y3 :: y4 :: '-' :: mo1 :: mo2 :: '-' :: d1 :: d2 :: rest => do
    let a ← dig y1; let b ← dig y2; let c ← dig y3; let d ← dig y4
    let e ← dig mo1; let f ← dig mo2; let g ← dig d1; let h ← dig d2
    let y := ((a * 10 + b) * 10 + c) * 10 + d
    let mo := e * 10 + f
    let dd := g * 10 + h
    match rest with
    | [] => mkDT y mo dd 0 0 0 0 (none : Option Int)
    | _ :: timeChars => do
      let (hh, mm, ss, micro, off) ← parseTimePart timeChars
      mkDT y mo dd hh mm ss micro off
  | _ => none

/-- `_parse_dt` (source lines 323–329): falsy input → `None`; a
non-string truthy value raises `AttributeError` at `.replace`, which is
caught → `None`; otherwise `"Z"` is replaced by `"+00:00"` and the
result parsed, any `ValueError` caught → `None`.  Total by construction:
the Python function itself never raises. -/
def parseDt (val : JVal) : Option PyDateTime :=
  match val with
  | .jstr s => if s = "" then none else fromisoformat (pyReplace s "Z" "+00:00")
  | _ => none

/-! ### Records and fetch outcomes -/

/-- A lead record (the fields `SupabaseLeadsReportTool.execute` and
`LeadLookupTool.execute` read, source lines 100–118 and 274–312).
Defaults model a missing key under `dict.get`; a JSON `null` is merged
with the missing case wherever the two are observationally equal for
the claims (they are for every field below: the only divergences are in
cosmetic `f"{None}"` renderings that no claim inspects). -/
structure Lead where
  id : String := ""
  lead_name : Option String := none
  mobile_number : Option String := none
  project : String := "N/A"
  status : Option String := none
  priority : Option String := some "N/A"
  lead_bucket : String := "N/A"
  lead_source : Option String := some "N/A"
  notes : Option String := none
  created_at : JVal := .null
  updated_at : JVal := .null
  site_visit_date : JVal := .null
  next_follow_up : JVal := .null
deriving DecidableEq

/-- A `lead_notes` record (fields read at source lines 76–79, 262–265;
`lead_id` merged to `""` for null/missing, `content` via
`note.get("content", "")`). -/
structure Note where
  lead_id : String := ""
  content : String := ""
deriving DecidableEq

/-- Outcome of the best-effort notes fetch: a status code with parsed
body, or `.failure` for anything the inner `try` catches (timeout,
transport error, malformed JSON body). -/
inductive FetchOutcome (α : Type) where
  | success (status : Nat) (body : α)
  | failure
deriving DecidableEq

/-- The notes fetch failed to contribute data: an exception or a
non-200 status (source lines 73–81: non-200 skips the loop, an
exception is swallowed). -/
def notesFailed : FetchOutcome (List Note) → Bool
  | .failure => true
  | .success st _ => st ≠ 200

/-- Report-path notes map (source lines 72–79): first note per truthy
`lead_id` wins (the fetch is ordered `created_at.desc`, so the first is
the latest). -/
def addNote1 (m : List (String × String)) (note : Note) : List (String × String) :=
  if note.lead_id ≠ "" && ((m.find? (fun kv => kv.1 == note.lead_id)).isNone) then
    m ++ [(note.lead_id, note.content)]
  else m

/-- The report's `lead_notes` dict from the fetch outcome. -/
def notesMapOf : FetchOutcome (List Note) → List (String × String)
  | .failure => []
  | .success st body => if st = 200 then body.foldl addNote1 [] else []

/-- `lead_notes.get(lead_id, "")`. -/
def lookupNote (m : List (String × String)) (k : String) : String :=
  ((m.find? (fun kv => kv.1 == k)).map Prod.snd).getD ""

/-- Lookup-path notes map (source lines 258–265):
`setdefault(lid, []).append(content)` per truthy `lead_id`. -/
def addNoteL (m : List (String × List String)) (note : Note) : List (String × List String) :=
  if note.lead_id = "" then m
  else
    match m.find? (fun kv => kv.1 == note.lead_id) with
    | some _ => m.map (fun kv => if kv.1 == note.lead_id then (kv.1, kv.2 ++ [note.content]) else kv)
    | none => m ++ [(note.lead_id, [note.content])]

/-- The lookup's `lead_notes` dict from the fetch outcome. -/
def notesMapL : FetchOutcome (List Note) → List (String × List String)
  | .failure => []
  | .success st body => if st = 200 then body.foldl addNoteL [] else []

/-! ### Classification (source lines 100–157) -/

/-- `status = (lead.get("status") or "").strip()`. -/
def statusStripped (lead : Lead) : String := pyStrip (lead.status.getD "")

/-- `status_lower = status.lower()`. -/
def statusLower (lead : Lead) : String := pyLower (statusStripped lead)

/-- `notes = (lead.get("notes") or "").strip()`. -/
def notesStripped (lead : Lead) : String := pyStrip (lead.notes.getD "")

/-- The aware cutoff `now - timedelta(days=days)` for an aware `now`
(the code always uses `datetime.now(timezone.utc)`). -/
def cutoffDt (now days : Int) : PyDateTime := ⟨now - days * usPerDay, some 0⟩

/-- `datetime.now(timezone.utc)` as a `PyDateTime`. -/
def nowDt (now : Int) : PyDateTime := ⟨now, some 0⟩

/-- The New test of source line 138:
`created_at and created_at >= new_cutoff` (a parsed datetime is always
truthy; the comparison raises `TypeError` when `created_at` is naive). -/
def isNewE (now daysNew : Int) (lead : Lead) : Except Unit Bool :=
  match parseDt lead.created_at with
  | none => .ok false
  | some c => pyGE c (cutoffDt now daysNew)

/-- The Stale test of source line 143:
`updated_at and updated_at < stale_cutoff and bucket not in ("Lost/Junk",)`
(left-to-right: the comparison is evaluated before the bucket check). -/
def isStaleE (now daysStale : Int) (lead : Lead) : Except Unit Bool :=
  match parseDt lead.updated_at with
  | none => .ok false
  | some u => do
    let b ← pyLT u (cutoffDt now daysStale)
    pure (b && (lead.lead_bucket != "Lost/Junk"))

/-- The SiteVisit test of source line 148:
`any(kw in status_lower for kw in ("site visit", "site_visit"))`. -/
def isSiteVisit (lead : Lead) : Bool :=
  strContains (statusLower lead) "site visit" || strContains (statusLower lead) "site_visit"

/-- The Hot test of source line 156:
`priority and priority.lower() == "hot" and "site visit" not in status_lower`. -/
def isHot (lead : Lead) : Bool :=
  (match lead.priority with
   | none => false
   | some p => p ≠ "" && pyLower p == "hot")
  && !(strContains (statusLower lead) "site visit")

/-! ### Rendering helpers -/

/-- Zero-pad to two digits (`%d`). -/
def pad2 (n : Int) : String := if n < 10 then "0" ++ toString n else toString n

/-- Zero-pad to four digits (`%Y` on glibc). -/
def pad4 (n : Int) : String :=
  if n < 10 then "000" ++ toString n
  else if n < 100 then "00" ++ toString n
  else if n < 1000 then "0" ++ toString n
  else toString n

/-- `%b` month abbreviation. -/
def monthAbbr (m : Int) : String :=
  if m = 1 then "Jan" else if m = 2 then "Feb" else if m = 3 then "Mar"
  else if m = 4 then "Apr" else if m = 5 then "May" else if m = 6 then "Jun"
  else if m = 7 then "Jul" else if m = 8 then "Aug" else if m = 9 then "Sep"
  else if m = 10 then "Oct" else if m = 11 then "Nov" else "Dec"

/-- `dt.strftime('%b %d, %Y')` (renders the wall-clock fields). -/
def strftimeBDY (dt : PyDateTime) : String :=
  let days := Int.fdiv (Int.fdiv dt.wall 1000000) 86400
  let c := civilFromDays days
  monthAbbr c.2.1 ++ " " ++ pad2 c.2.2 ++ ", " ++ pad4 c.1

/-- The per-lead report line (source lines 123–135): base fields plus the
optional source, status, note snippet, latest-note and next-follow-up
annotations. -/
def leadLine (noteMap : List (String × String)) (lead : Lead) : String :=
  let name := lead.lead_name.getD "Unknown"
  let phone := lead.mobile_number.getD "N/A"
  let base := "  • *" ++ name ++ "* | " ++ phone ++ " | " ++ lead.project
  let l1 := match lead.lead_source with
    | some s => if s ≠ "" then base ++ " | " ++ s else base
    | none => base
  let st := statusStripped lead
  let l2 := if st ≠ "" then l1 ++ " | _" ++ st ++ "_" else l1
  let ns := notesStripped lead
  let l3 := if ns ≠ "" then l2 ++ "\n    📝 " ++ pyTake ns 80 else l2
  let rn := lookupNote noteMap lead.id
  let l4 := if rn ≠ "" && rn ≠ ns then l3 ++ "\n    💬 Latest note: " ++ pyTake rn 80 else l3
  -- `if next_fu:` then `_parse_dt`; `parseDt` already returns `none` on a
  -- falsy value, so the outer truthiness test is absorbed.
  match parseDt lead.next_follow_up with
  | some fu => l4 ++ "\n    📅 Next follow-up: " ++ strftimeBDY fu
  | none => l4

/-- Accumulator of the classification loop (source lines 92–157). -/
structure LoopAcc where
  byProject : List (String × Nat) := []
  newL : List (Int × String) := []
  staleL : List (Int × String) := []
  svL : List String := []
  hotL : List String := []

/-- `by_project[project] = by_project.get(project, 0) + 1` on an
insertion-ordered association list. -/
def bumpProject : List (String × Nat) → String → List (String × Nat)
  | [], p => [(p, 1)]
  | (k, c) :: rest, p =>
    if k = p then (k, c + 1) :: rest else (k, c) :: bumpProject rest p

/-- One iteration of the classification loop for a single lead.  The New
and Stale tests are exactly `isNewE` / `isStaleE`; the day counts are
computed only after the corresponding test passed, as in the source
(so an error can arise only from the test's own comparison). -/
def stepLead (noteMap : List (String × String)) (daysNew daysStale now : Int)
    (acc : LoopAcc) (lead : Lead) : Except Unit LoopAcc := do
  let line := leadLine noteMap lead
  let bNew ← isNewE now daysNew lead
  let newL ←
    if bNew then
      match parseDt lead.created_at with
      | some c => do
        let diff ← pySub (nowDt now) c
        let d := tdDays diff
        pure (acc.newL ++ [(d, line ++ "\n    🕐 Added " ++ toString d ++ "d ago")])
      | none => pure acc.newL
    else pure acc.newL
  let bStale ← isStaleE now daysStale lead
  let staleL ←
    if bStale then
      match parseDt lead.updated_at with
      | some u => do
        let diff ← pySub (nowDt now) u
        let d := tdDays diff
        pure (acc.staleL ++ [(d, line ++ "\n    ⚠️ Last updated " ++ toString d ++ "d ago")])
      | none => pure acc.staleL
    else pure acc.staleL
  let svL :=
    if isSiteVisit lead then
      let svInfo :=
        if jTruthy lead.site_visit_date then
          match parseDt lead.site_visit_date with
          | some svdt => " on " ++ strftimeBDY svdt
          | none => " on " ++ jTextOf lead.site_visit_date
        else ""
      acc.svL ++ [line ++ "\n    🏠 Site visit" ++ svInfo]
    else acc.svL
  let hotL := if isHot lead then acc.hotL ++ [line] else acc.hotL
  pure { byProject := bumpProject acc.byProject lead.project,
         newL := newL, staleL := staleL, svL := svL, hotL := hotL }

/-! ### Section assembly (source lines 159–211) -/

/-- `stale_leads.sort(key=lambda x: -x[0])`: stable descending by the
day count. -/
def staleSort (xs : List (Int × String)) : List (Int × String) :=
  List.insertionSort (fun a b => b.1 ≤ a.1) xs

/-- `new_leads.sort(key=lambda x: x[0])`: stable ascending. -/
def newSort (xs : List (Int × String)) : List (Int × String) :=
  List.insertionSort (fun a b : Int × String => a.1 ≤ b.1) xs

/-- `sorted(by_project.items(), key=lambda x: -x[1])`: stable descending
by count. -/
def projSort (xs : List (String × Nat)) : List (String × Nat) :=
  List.insertionSort (fun a b : String × Nat => b.2 ≤ a.2) xs

/-- Body of the Stale section given the already-sorted entries (source
lines 203–209): the 15 first entries, a literal remainder line when more
exist, or the all-up-to-date fallback when empty. -/
def staleSectionBody (xs : List (Int × String)) : List String :=
  if xs.isEmpty then ["  All leads are up to date! ✅"]
  else
    (xs.take 15).map Prod.snd ++
      (if 15 < xs.length then
        ["  ...and " ++ toString (xs.length - 15) ++ " more stale leads"]
      else [])

def secNewMark : String := "🆕 *New Leads — Last "

def newHeaderLine (dn : Int) (n : Nat) : String :=
  secNewMark ++ (toString dn ++ (" Days (" ++ (toString n ++ ")*")))

def secSvMark : String := "🏠 *Site Visit — Scheduled/Confirmed/Done ("

def svHeaderLine (n : Nat) : String := secSvMark ++ (toString n ++ ")*")

def secHotMark : String := "🔥 *Hot Leads — Needs Attention ("

def hotHeaderLine (n : Nat) : String := secHotMark ++ (toString n ++ ")*")

def secStaleMark : String := "⏰ *Stale Leads — No Update in "

def staleHeaderLine (ds : Int) (n : Nat) : String :=
  secStaleMark ++ (toString ds ++ ("+ Days (" ++ (toString n ++ ")*")))

def titleLine (now : Int) : String :=
  "📊 *Daily Leads Report — " ++ strftimeBDY (nowDt now) ++ "*"

def barLine : String := "━━━━━━━━━━━━━━━━━━━━━━"

/-- The report's line list from the loop results (source lines 163–209). -/
def assemble (dn ds now : Int) (total : Nat) (acc : LoopAcc) : List String :=
  let projParts := (projSort acc.byProject).map (fun pc => pc.1 ++ ": " ++ toString pc.2)
  let newSorted := newSort acc.newL
  [titleLine now, barLine,
   "Total leads: *" ++ toString total ++ "*",
   "By project: " ++ String.intercalate " | " projParts, ""] ++
  [newHeaderLine dn acc.newL.length] ++
  (if newSorted.isEmpty then ["  No new leads in this period."] else newSorted.map Prod.snd) ++
  [""] ++
  [svHeaderLine acc.svL.length] ++
  (if acc.svL.isEmpty then ["  No leads with site visit status."] else acc.svL) ++
  [""] ++
  [hotHeaderLine acc.hotL.length] ++
  (if acc.hotL.isEmpty then ["  No additional hot leads."] else acc.hotL) ++
  [""] ++
  [staleHeaderLine ds acc.staleL.length] ++
  staleSectionBody (staleSort acc.staleL)

/-- The report body for a fixed notes map. -/
def reportLinesCore (dn ds now : Int) (leads : List Lead)
    (noteMap : List (String × String)) : Except Unit (List String) := do
  let acc ← leads.foldlM (stepLead noteMap dn ds now) {}
  pure (assemble dn ds now leads.length acc)

/-- The report's line list from the raw notes-fetch outcome. -/
def buildReportLines (dn ds now : Int) (leads : List Lead)
    (nf : FetchOutcome (List Note)) : Except Unit (List String) :=
  reportLinesCore dn ds now leads (notesMapOf nf)

/-! ### Credentials and the two entry points -/

/-- Process environment: `os.environ.get("SUPABASE_URL", "")` and
`os.environ.get("SUPABASE_KEY", "")`. -/
structure Env where
  SUPABASE_URL : String := ""
  SUPABASE_KEY : String := ""
deriving DecidableEq

/-- `kwargs.get(name) or os.environ.get(NAME, "")`: a falsy explicit
parameter (absent or empty) falls back to the environment. -/
def resolveCred (param : Option String) (env : String) : String :=
  if param.getD "" = "" then env else param.getD ""

/-- The literal credential error string (source lines 49 and 240). -/
def credErrMsg : String :=
  "Error: SUPABASE_URL and SUPABASE_KEY environment variables are not set."

/-- What an operation does before any network access. -/
inductive Step where
  | configError (msg : String)
  | proceed (url key : String)
deriving DecidableEq

/-- Report credential resolution (source lines 46–49): explicit
parameters first, environment fallback. -/
def reportResolve (pu pk : Option String) (env : Env) : Step :=
  let url := resolveCred pu env.SUPABASE_URL
  let key := resolveCred pk env.SUPABASE_KEY
  if url = "" || key = "" then .configError credErrMsg else .proceed url key

/-- Lookup credential resolution (source lines 237–240): the environment
only — the `**kwargs` parameters are accepted but never read. -/
def lookupResolve (_pu _pk : Option String) (env : Env) : Step :=
  if env.SUPABASE_URL = "" || env.SUPABASE_KEY = "" then .configError credErrMsg
  else .proceed env.SUPABASE_URL env.SUPABASE_KEY

/-- `leads_report` (`SupabaseLeadsReportTool.execute`) with the network
modelled as inputs: the mandatory leads fetch as `Except String` (error =
the caught exception's text, source line 83), the best-effort notes fetch
as a `FetchOutcome`.  `.error ()` models an uncaught `TypeError` from a
naive/aware datetime comparison in the classification loop. -/
def reportExecute (pu pk : Option String) (env : Env) (dn ds now : Int)
    (leadsFetch : Except String (List Lead)) (nf : FetchOutcome (List Note)) :
    Except Unit String :=
  match reportResolve pu pk env with
  | .configError m => .ok m
  | .proceed _ _ =>
    match leadsFetch with
    | .error e => .ok ("Error fetching leads: " ++ e)
    | .ok leads =>
      if leads.isEmpty then .ok "No leads found in the database."
      else (buildReportLines dn ds now leads nf).map (String.intercalate "\n")

/-! ### `lead_lookup` (`LeadLookupTool.execute`, source lines 236–320) -/

/-- Query normalization (source line 272):
`query.lower().replace("+91", "").replace(" ", "").replace("-", "")`. -/
def normQuery (q : String) : String :=
  pyReplace (pyReplace (pyReplace (pyLower q) "+91" "") " " "") "-" ""

/-- Candidate-name normalization (source line 275): lower-casing ONLY —
spaces, hyphens and `"+91"` are kept. -/
def normName (lead : Lead) : String := pyLower (lead.lead_name.getD "")

/-- Candidate-phone normalization (source line 276): stripping ONLY —
the case is kept. -/
def normPhone (lead : Lead) : String :=
  pyReplace (pyReplace (pyReplace (lead.mobile_number.getD "") "+91" "") " " "") "-" ""

/-- Match test of source line 277: `q_lower in name or q_lower in phone`
for an already-normalized query. -/
def leadMatches (qlower : String) (lead : Lead) : Bool :=
  strContains (normName lead) qlower || strContains (normPhone lead) qlower

/-- One detail block of the lookup result (source lines 285–317). -/
def renderBlock (nm : List (String × List String)) (now : Int) (lead : Lead) :
    Except Unit String := do
  let createdAgo ←
    match parseDt lead.created_at with
    | some c => do
      let d ← pySub (nowDt now) c
      pure (toString (tdDays d) ++ "d ago")
    | none => pure "unknown"
  let updatedAgo ←
    match parseDt lead.updated_at with
    | some u => do
      let d ← pySub (nowDt now) u
      pure (toString (tdDays d) ++ "d ago")
    | none => pure "unknown"
  let createdStr := match parseDt lead.created_at with
    | some c => strftimeBDY c
    | none => "N/A"
  let updatedStr := match parseDt lead.updated_at with
    | some u => strftimeBDY u
    | none => "N/A"
  let ls0 : List String :=
    ["*" ++ lead.lead_name.getD "Unknown" ++ "*",
     "  Phone: " ++ lead.mobile_number.getD "N/A",
     "  Project: " ++ lead.project,
     "  Status: " ++ lead.status.getD "N/A",
     "  Priority: " ++ lead.priority.getD "N/A",
     "  Bucket: " ++ lead.lead_bucket,
     "  Source: " ++ lead.lead_source.getD "N/A",
     "  Created: " ++ createdStr ++ " (" ++ createdAgo ++ ")",
     "  Last Updated: " ++ updatedStr ++ " (" ++ updatedAgo ++ ")"]
  let ls1 :=
    if jTruthy lead.site_visit_date then
      ls0 ++ ["  Site Visit Date: " ++
        (match parseDt lead.site_visit_date with
         | some sv => strftimeBDY sv
         | none => jTextOf lead.site_visit_date)]
    else ls0
  let ls2 :=
    if jTruthy lead.next_follow_up then
      ls1 ++ ["  Next Follow-up: " ++
        (match parseDt lead.next_follow_up with
         | some fu => strftimeBDY fu
         | none => jTextOf lead.next_follow_up)]
    else ls1
  let ls3 :=
    match lead.notes with
    | some s => if s ≠ "" then ls2 ++ ["  Notes: " ++ s] else ls2
    | none => ls2
  let ns := ((nm.find? (fun kv => kv.1 == lead.id)).map Prod.snd).getD []
  let ls4 :=
    if ns.isEmpty then ls3
    else (ls3 ++ ["  Recent Notes (" ++ toString ns.length ++ "):"]) ++
      (ns.take 5).map (fun n => "    • " ++ pyTake n 120)
  pure (String.intercalate "\n" ls4)

/-- The matched-leads rendering path (source lines 283–320). -/
def renderLookup (q : String) (matched : List Lead)
    (nm : List (String × List String)) (now : Int) : Except Unit String := do
  let blocks ← matched.mapM (renderBlock nm now)
  pure ("Found " ++ toString matched.length ++ " lead(s) matching '" ++ q ++ "':\n" ++
    String.intercalate "\n\n" blocks)

/-- `lead_lookup` with the network modelled as inputs.  The `_pu`/`_pk`
parameters model credentials passed through `**kwargs`: the source reads
the environment only. -/
def lookupExecute (_pu _pk : Option String) (env : Env) (query : String) (now : Int)
    (leadsFetch : Except String (List Lead)) (nf : FetchOutcome (List Note)) :
    Except Unit String :=
  match lookupResolve _pu _pk env with
  | .configError m => .ok m
  | .proceed _ _ =>
    match leadsFetch with
    | .error e => .ok ("Error fetching leads: " ++ e)
    | .ok leads =>
      let q := pyStrip query
      let matched := leads.filter (leadMatches (normQuery q))
      if matched.isEmpty then .ok ("No leads found matching '" ++ q ++ "'.")
      else renderLookup q matched (notesMapL nf) now

/-! ## Theorems -/

/-- The empty string is a substring of everything. -/
theorem infixOfL_nil (l : List Char) : infixOfL [] l = true := by
  induction l with
  | nil => rfl
  | cons c rest ih => simp [infixOfL, List.isPrefixOf, ih]

/-! ### C1 -/

/-- A lead whose `created_at` is a future-dated ISO string without a UTC
offset. -/
def ldNewCex : Lead := { created_at := .jstr "2999-01-01T00:00:00" }

/-- C1 counterexample: with `now` = 2024-01-01T00:00:00Z and
`days_new` = 10, this lead's `created_at` parses to a present instant
(2999-01-01, offset-naive) that lies at or after `now − days_new` under
every timezone reading (even shifted a full day it still clears the
cutoff), yet the lead is NOT classified New: the comparison with the
aware cutoff raises `TypeError` (`.error ()`), so the claim's "a
future-dated created_at is also New" fails on the code. -/
theorem new_future_naive_cex :
    parseDt ldNewCex.created_at = some (⟨32472144000000000, none⟩ : PyDateTime) ∧
      1704067200000000 - 10 * usPerDay ≤ 32472144000000000 - usPerDay ∧
      isNewE 1704067200000000 10 ldNewCex = .error () :=
  ⟨by decide, by decide, rfl⟩

/-- C1 (amended): for every lead whose `created_at` is absent or parses
to a timezone-aware instant, the lead is classified New iff `created_at`
parses to an instant at or after `now − days_new`: the lower bound is
inclusive and there is no upper bound (a future-dated aware `created_at`
is New).  (If `created_at` parses to an offset-naive instant the report
raises `TypeError` instead of classifying; see the counterexample.) -/
theorem new_classification_iff (now dn : Int) (lead : Lead)
    (h : Option.all (fun t => t.tz.isSome) (parseDt lead.created_at) = true) :
    isNewE now dn lead = .ok true ↔
      ∃ t, parseDt lead.created_at = some t ∧ now - dn * usPerDay ≤ awareInstant t := by
  cases hp : parseDt lead.created_at with
  | none => simp [isNewE, hp]
  | some t =>
    rw [hp] at h
    simp only [Option.all] at h
    obtain ⟨o, ho⟩ := Option.isSome_iff_exists.mp h
    simp only [isNewE, hp, pyGE, cutoffDt, ho, awareInstant, Option.getD_some,
      ge_iff_le, Except.ok.injEq, decide_eq_true_eq, Option.some.injEq]
    constructor
    · intro hle
      exact ⟨t, rfl, by simpa [ho] using by omega⟩
    · rintro ⟨t', ht', hle⟩
      subst ht'
      simp [ho] at hle
      omega

/-- Witness lead for `new_classification_iff`: an aware `created_at`. -/
def ldNewW : Lead := { created_at := .jstr "2100-01-01T00:00:00+00:00" }

theorem new_classification_iff_witness :
    Option.all (fun t => t.tz.isSome) (parseDt ldNewW.created_at) = true ∧
      (isNewE 1704067200000000 10 ldNewW = .ok true ↔
        ∃ t, parseDt ldNewW.created_at = some t ∧
          1704067200000000 - 10 * usPerDay ≤ awareInstant t) :=
  ⟨by decide, new_classification_iff 1704067200000000 10 ldNewW (by decide)⟩

/-! ### C2 -/

/-- A lead whose `updated_at` is a decades-old ISO string without a UTC
offset and whose bucket is not `"Lost/Junk"`. -/
def ldStaleCex : Lead := { updated_at := .jstr "1990-01-01T00:00:00" }

/-- C2 counterexample: with `now` = 2024-01-01T00:00:00Z and
`days_stale` = 7, this lead's `updated_at` parses to a present instant
(1990-01-01, offset-naive) strictly before `now − days_stale` under
every timezone reading, and its bucket is not `"Lost/Junk"`, yet the
lead is NOT classified Stale: the comparison with the aware cutoff
raises `TypeError` (`.error ()`). -/
theorem stale_old_naive_cex :
    parseDt ldStaleCex.updated_at = some (⟨631152000000000, none⟩ : PyDateTime) ∧
      631152000000000 + usPerDay < 1704067200000000 - 7 * usPerDay ∧
      ldStaleCex.lead_bucket ≠ "Lost/Junk" ∧
      isStaleE 1704067200000000 7 ldStaleCex = .error () :=
  ⟨by decide, by decide, by decide, rfl⟩

/-- C2 (amended): for every lead whose `updated_at` is absent or parses
to a timezone-aware instant, the lead is classified Stale iff
`updated_at` parses to an instant strictly before `now − days_stale` and
`lead_bucket` is not exactly the case-sensitive string `"Lost/Junk"`;
moreover a `"Lost/Junk"` lead is never classified Stale.  (If
`updated_at` parses to an offset-naive instant the report raises
`TypeError` instead of classifying; see the counterexample.) -/
theorem stale_classification_iff (now ds : Int) (lead : Lead)
    (h : Option.all (fun t => t.tz.isSome) (parseDt lead.updated_at) = true) :
    (isStaleE now ds lead = .ok true ↔
      ∃ t, parseDt lead.updated_at = some t ∧ awareInstant t < now - ds * usPerDay ∧
        lead.lead_bucket ≠ "Lost/Junk") ∧
    (lead.lead_bucket = "Lost/Junk" → isStaleE now ds lead ≠ .ok true) := by
  cases hp : parseDt lead.updated_at with
  | none => simp [isStaleE, hp]
  | some t =>
    rw [hp] at h
    simp only [Option.all] at h
    obtain ⟨o, ho⟩ := Option.isSome_iff_exists.mp h
    simp only [isStaleE, hp, pyLT, cutoffDt, ho, awareInstant, Option.getD_some,
      Except.bind, Except.ok.injEq, Option.some.injEq, bind, pure, Except.pure, ne_eq]
    constructor
    · constructor
      · intro hb
        refine ⟨t, rfl, ?_, ?_⟩
        · simp only [ho, Option.getD_some]
          rcases Bool.and_eq_true .. |>.mp hb with ⟨hlt, _⟩
          rw [decide_eq_true_eq] at hlt
          omega
        · rcases Bool.and_eq_true .. |>.mp hb with ⟨_, hbk⟩
          exact bne_iff_ne.mp hbk
      · rintro ⟨t', ht', hlt, hbk⟩
        subst ht'
        simp only [ho, Option.getD_some] at hlt
        refine Bool.and_eq_true .. |>.mpr ⟨?_, bne_iff_ne.mpr hbk⟩
        rw [decide_eq_true_eq]
        omega
    · intro hbk hcontra
      rcases Bool.and_eq_true .. |>.mp hcontra with ⟨_, hb⟩
      exact (bne_iff_ne.mp hb) hbk

/-- Witness lead for `stale_classification_iff`: an aware `updated_at`. -/
def ldStaleW : Lead := { updated_at := .jstr "2023-11-01T00:00:00Z" }

theorem stale_classification_iff_witness :
    Option.all (fun t => t.tz.isSome) (parseDt ldStaleW.updated_at) = true ∧
      ((isStaleE 1704067200000000 7 ldStaleW = .ok true ↔
        ∃ t, parseDt ldStaleW.updated_at = some t ∧
          awareInstant t < 1704067200000000 - 7 * usPerDay ∧
          ldStaleW.lead_bucket ≠ "Lost/Junk") ∧
      (ldStaleW.lead_bucket = "Lost/Junk" →
        isStaleE 1704067200000000 7 ldStaleW ≠ .ok true)) :=
  ⟨by decide, stale_classification_iff 1704067200000000 7 ldStaleW (by decide)⟩

/-! ### C3 -/

/-- A hot-priority lead whose status contains `"site_visit"` (underscore
form) but not `"site visit"` (space form). -/
def ldHotSv : Lead := { priority := some "Hot", status := some "site_visit done" }

/-- C3 counterexample: this lead is classified BOTH Hot and SiteVisit —
the Hot rule only excludes the substring `"site visit"`, while the
SiteVisit rule also accepts `"site_visit"`, so the two sections are not
mutually exclusive as the claim states. -/
theorem hot_sitevisit_overlap_cex :
    isHot ldHotSv = true ∧ isSiteVisit ldHotSv = true :=
  ⟨by decide, by decide⟩

/-- C3 (amended): a lead is Hot iff its priority case-insensitively
equals `"hot"` and its lowercased status does not contain
`"site visit"`; consequently a lead can be in both the Hot and SiteVisit
sections exactly when its lowercased status contains `"site_visit"`
(underscore form) without containing `"site visit"` — full mutual
exclusivity fails (see the counterexample). -/
theorem hot_rule_amended (lead : Lead) :
    isHot lead = (pyLower (lead.priority.getD "") == "hot"
      && !(strContains (statusLower lead) "site visit")) ∧
    (isHot lead && isSiteVisit lead)
      = (isHot lead && strContains (statusLower lead) "site_visit") := by
  constructor
  · cases hp : lead.priority with
    | none => simp [isHot, hp, pyLower]
    | some p =>
      by_cases hp0 : p = ""
      · subst hp0
        simp [isHot, hp, pyLower]
      · simp [isHot, hp, hp0]
  · simp only [isHot, isSiteVisit]
    cases hsv : strContains (statusLower lead) "site visit" <;>
      cases hsu : strContains (statusLower lead) "site_visit" <;>
        simp [hsv, hsu]

/-! ### C4 -/

/-- A lead whose `created_at` has no UTC offset. -/
def ldNaive : Lead := { created_at := .jstr "2024-01-01T00:00:00" }

/-- C4: `_parse_dt` is total — falsy input, a malformed string or a
non-string all yield `none`, and an absent timestamp is silently
excluded from the New/Stale tests (`.ok false`, no error) — BUT an ISO
string without a UTC offset parses to an offset-NAIVE instant, not a
timezone-aware one, and the report's comparison of that naive value with
the aware cutoff then raises an uncaught `TypeError` (`.error ()`),
contradicting the claimed "timezone-aware instant or absent … without
raising an error anywhere in the report pipeline". -/
theorem parse_dt_naive_failing :
    parseDt (.jstr "2024-01-01T00:00:00") = some (⟨1704067200000000, none⟩ : PyDateTime) ∧
      (⟨1704067200000000, none⟩ : PyDateTime).tz = none ∧
      isNewE 1704153600000000 10 ldNaive = .error () ∧
      parseDt (.jstr "not-a-date") = none ∧
      parseDt .null = none ∧
      parseDt (.jstr "") = none ∧
      parseDt (.jnum 5) = none ∧
      isNewE 1704153600000000 10 { created_at := .jstr "not-a-date" } = .ok false ∧
      isStaleE 1704153600000000 7 { updated_at := .null } = .ok false :=
  ⟨by decide, rfl, rfl, by decide, rfl, rfl, rfl, rfl, rfl⟩

/-! ### C5 -/

instance : IsTotal (Int × String) (fun a b => b.1 ≤ a.1) :=
  ⟨fun a b => le_total b.1 a.1⟩

instance : IsTrans (Int × String) (fun a b => b.1 ≤ a.1) :=
  ⟨fun _ _ _ hab hbc => le_trans hbc hab⟩

/-- C5: the rendered Stale section is in descending `staleness_days`
order (the sort is a permutation of the input, so the 15 printed entries
are the most stale), prints at most the first 15 sorted entries, appends
exactly one remainder line stating `total − 15` when more than 15 exist,
and with 16 entries prints exactly 15 entry lines plus the literal
`"  ...and 1 more stale leads"`. -/
theorem stale_section_spec (xs : List (Int × String)) :
    ((staleSort xs).map Prod.fst).Sorted (· ≥ ·) ∧
    (staleSort xs).Perm xs ∧
    (xs ≠ [] → (staleSectionBody (staleSort xs)).length
        = min xs.length 15 + (if 15 < xs.length then 1 else 0)) ∧
    (15 < xs.length →
      (staleSectionBody (staleSort xs)).getLast? =
        some ("  ...and " ++ toString (xs.length - 15) ++ " more stale leads")) ∧
    (xs.length = 16 →
      (staleSectionBody (staleSort xs)).length = 16 ∧
      (staleSectionBody (staleSort xs)).getLast? = some "  ...and 1 more stale leads") := by
  have hsorted : ((staleSort xs).map Prod.fst).Sorted (· ≥ ·) := by
    unfold staleSort
    have hs := List.sorted_insertionSort (α := Int × String) (fun a b => b.1 ≤ a.1) xs
    exact List.Pairwise.map Prod.fst (fun a b (h : b.1 ≤ a.1) => h) hs
  have hperm : (staleSort xs).Perm xs := List.perm_insertionSort _ xs
  have hlen : (staleSort xs).length = xs.length := hperm.length_eq
  have hbody : xs ≠ [] → (staleSectionBody (staleSort xs)).length
      = min xs.length 15 + (if 15 < xs.length then 1 else 0) := by
    intro hne
    have hne2 : (staleSort xs).isEmpty = false := by
      rw [List.isEmpty_eq_false_iff_exists_mem]
      obtain ⟨a, ha⟩ := List.exists_mem_of_ne_nil xs hne
      exact ⟨a, hperm.mem_iff.mpr ha⟩
    rw [staleSectionBody, hne2]
    simp only [Bool.false_eq_true, if_false, List.length_append, List.length_map,
      List.length_take, hlen]
    split_ifs with hgt
    · simp [Nat.min_comm]
    · simp [Nat.min_comm]
  have hlast : 15 < xs.length →
      (staleSectionBody (staleSort xs)).getLast? =
        some ("  ...and " ++ toString (xs.length - 15) ++ " more stale leads") := by
    intro hgt
    have hne2 : (staleSort xs).isEmpty = false := by
      rw [List.isEmpty_eq_false_iff_exists_mem]
      have : xs ≠ [] := by
        intro hnil; rw [hnil] at hgt; simp at hgt
      obtain ⟨a, ha⟩ := List.exists_mem_of_ne_nil xs this
      exact ⟨a, hperm.mem_iff.mpr ha⟩
    rw [staleSectionBody, hne2]
    simp only [Bool.false_eq_true, if_false, hlen, hgt, if_pos]
    exact List.getLast?_concat _
  refine ⟨hsorted, hperm, hbody, hlast, fun h16 => ⟨?_, ?_⟩⟩
  · have := hbody (by intro hnil; rw [hnil] at h16; simp at h16)
    rw [this, h16]
    norm_num
  · have := hlast (by omega)
    rw [this, h16]
    rfl

/-- Sixteen stale entries for the witness. -/
def xs16 : List (Int × String) :=
  (List.range 16).map (fun i => ((i : Int), "L" ++ toString i))

theorem stale_section_spec_witness :
    ((staleSort xs16).map Prod.fst).Sorted (· ≥ ·) ∧
    (staleSectionBody (staleSort xs16)).length = 16 ∧
    (staleSectionBody (staleSort xs16)).getLast? = some "  ...and 1 more stale leads" := by
  have h := stale_section_spec xs16
  exact ⟨h.1, (h.2.2.2.2 (by decide)).1, (h.2.2.2.2 (by decide)).2⟩

/-! ### C7 -/

/-- C7: a failed notes fetch (exception or non-200 status) never changes
the outcome of either operation relative to an empty notes result — the
report and the lookup are produced from an empty notes map — and
whenever the report body is produced it contains all four section
headers (New, SiteVisit, Hot, Stale). -/
theorem notes_best_effort (pu pk su sk : Option String) (env : Env) (dn ds now : Int)
    (leads : List Lead) (q : String) (lf : Except String (List Lead))
    (nf : FetchOutcome (List Note)) (h : notesFailed nf = true) :
    reportExecute pu pk env dn ds now lf nf
        = reportExecute pu pk env dn ds now lf (.success 200 []) ∧
    lookupExecute su sk env q now lf nf
        = lookupExecute su sk env q now lf (.success 200 []) ∧
    (∀ ls, buildReportLines dn ds now leads nf = .ok ls →
      ((∃ l ∈ ls, ∃ r, l = secNewMark ++ r) ∧
       (∃ l ∈ ls, ∃ r, l = secSvMark ++ r) ∧
       (∃ l ∈ ls, ∃ r, l = secHotMark ++ r) ∧
       (∃ l ∈ ls, ∃ r, l = secStaleMark ++ r))) := by
  have hm1 : notesMapOf nf = [] := by
    cases nf with
    | failure => rfl
    | success st body =>
      simp only [notesFailed, ne_eq, decide_eq_true_eq] at h
      simp [notesMapOf, h]
  have hm2 : notesMapL nf = [] := by
    cases nf with
    | failure => rfl
    | success st body =>
      simp only [notesFailed, ne_eq, decide_eq_true_eq] at h
      simp [notesMapL, h]
  have hb : ∀ leads' : List Lead, buildReportLines dn ds now leads' nf
      = buildReportLines dn ds now leads' (.success 200 []) := by
    intro leads'
    rw [buildReportLines, buildReportLines, hm1]
    rfl
  have hl2 : notesMapL nf = notesMapL (.success 200 []) := by
    rw [hm2]; rfl
  refine ⟨?_, ?_, ?_⟩
  · simp only [reportExecute, hb]
  · simp only [lookupExecute, hl2]
  · intro ls hls
    rw [buildReportLines, reportLinesCore] at hls
    cases hacc : leads.foldlM (stepLead (notesMapOf nf) dn ds now) {} with
    | error e =>
      rw [hacc] at hls
      simp [Bind.bind, Except.bind] at hls
    | ok acc =>
      rw [hacc] at hls
      simp only [Bind.bind, Except.bind, pure, Except.pure, Except.ok.injEq] at hls
      subst hls
      refine ⟨⟨newHeaderLine dn acc.newL.length, ?_,
          toString dn ++ (" Days (" ++ (toString acc.newL.length ++ ")*")), rfl⟩,
        ⟨svHeaderLine acc.svL.length, ?_, toString acc.svL.length ++ ")*", rfl⟩,
        ⟨hotHeaderLine acc.hotL.length, ?_, toString acc.hotL.length ++ ")*", rfl⟩,
        ⟨staleHeaderLine ds acc.staleL.length, ?_,
          toString ds ++ ("+ Days (" ++ (toString acc.staleL.length ++ ")*")), rfl⟩⟩ <;>
        simp [assemble, List.mem_append]

/-- Concrete inputs for the `notes_best_effort` witness. -/
def ldW7 : Lead := { lead_name := some "W", project := "P" }

theorem notes_best_effort_witness :
    reportExecute none none ⟨"u", "k"⟩ 10 7 1704067200000000 (.ok [ldW7]) .failure
        = reportExecute none none ⟨"u", "k"⟩ 10 7 1704067200000000 (.ok [ldW7])
            (.success 200 []) ∧
    lookupExecute none none ⟨"u", "k"⟩ "w" 1704067200000000 (.ok [ldW7]) .failure
        = lookupExecute none none ⟨"u", "k"⟩ "w" 1704067200000000 (.ok [ldW7])
            (.success 200 []) ∧
    (∀ ls, buildReportLines 10 7 1704067200000000 [ldW7] .failure = .ok ls →
      ((∃ l ∈ ls, ∃ r, l = secNewMark ++ r) ∧
       (∃ l ∈ ls, ∃ r, l = secSvMark ++ r) ∧
       (∃ l ∈ ls, ∃ r, l = secHotMark ++ r) ∧
       (∃ l ∈ ls, ∃ r, l = secStaleMark ++ r))) :=
  notes_best_effort none none none none ⟨"u", "k"⟩ 10 7 1704067200000000
    [ldW7] "w" (.ok [ldW7]) .failure (by decide)

/-! ### C8 -/

/-- C8 counterexample: with an empty environment and both credentials
supplied as explicit parameters, `lead_lookup` still aborts with the
credential error string — it reads only the environment and ignores the
explicit parameters — while `leads_report` under the same inputs
resolves the parameters and proceeds past the credential check.  The
claim's "for both operations … resolved from explicit parameters first"
fails for `lead_lookup`. -/
theorem lookup_params_ignored_cex :
    lookupExecute (some "https://x") (some "k") ⟨"", ""⟩ "q" 0 (.ok []) (.success 200 [])
        = .ok credErrMsg ∧
    lookupResolve (some "https://x") (some "k") ⟨"", ""⟩ = .configError credErrMsg ∧
    reportResolve (some "https://x") (some "k") ⟨"", ""⟩ = .proceed "https://x" "k" :=
  ⟨rfl, rfl, rfl⟩

/-- C8 (amended): `leads_report` resolves each credential from its
explicit parameter first with environment fallback, while `lead_lookup`
reads the environment only (its explicit parameters are ignored); each
operation aborts with the literal credential error string exactly when
its resolved credentials are incomplete, and in that case the returned
value is that string regardless of the network — no fetch result is
consulted, and no exception is raised. -/
theorem cred_resolution_amended (pu pk : Option String) (env : Env) (dn ds now : Int)
    (q : String) (lf : Except String (List Lead)) (nf : FetchOutcome (List Note)) :
    (reportResolve pu pk env = .configError credErrMsg ↔
      (resolveCred pu env.SUPABASE_URL = "" ∨ resolveCred pk env.SUPABASE_KEY = "")) ∧
    (lookupResolve pu pk env = .configError credErrMsg ↔
      (env.SUPABASE_URL = "" ∨ env.SUPABASE_KEY = "")) ∧
    lookupExecute pu pk env q now lf nf = lookupExecute none none env q now lf nf ∧
    (reportResolve pu pk env = .configError credErrMsg →
      reportExecute pu pk env dn ds now lf nf = .ok credErrMsg) ∧
    (lookupResolve pu pk env = .configError credErrMsg →
      lookupExecute pu pk env q now lf nf = .ok credErrMsg) := by
  refine ⟨?_, ?_, rfl, ?_, ?_⟩
  · rw [reportResolve]
    split_ifs with hc
    · simpa using hc
    · simp only [Bool.or_eq_true, decide_eq_true_eq] at hc
      simp [hc]
  · rw [lookupResolve]
    split_ifs with hc
    · simpa using hc
    · simp only [Bool.or_eq_true, decide_eq_true_eq] at hc
      simp [hc]
  · intro hcfg
    rw [reportExecute.eq_def, hcfg]
  · intro hcfg
    rw [lookupExecute.eq_def, hcfg]

theorem cred_resolution_amended_witness :
    (reportResolve none none ⟨"", ""⟩ = .configError credErrMsg ↔
      (resolveCred none "" = "" ∨ resolveCred none "" = "")) ∧
    reportExecute none none ⟨"", ""⟩ 10 7 0 (.ok [ldW7]) .failure = .ok credErrMsg ∧
    lookupExecute none none ⟨"", ""⟩ "q" 0 (.ok [ldW7]) .failure = .ok credErrMsg := by
  have h := cred_resolution_amended none none ⟨"", ""⟩ 10 7 0 "q" (.ok [ldW7]) .failure
  exact ⟨h.1, h.2.2.2.1 (by decide), h.2.2.2.2 (by decide)⟩

/-! ### C9 -/

/-- C9: whenever the credentials resolve (so the fetch is reached) and
the leads fetch returns an empty array, the report is exactly the
literal `"No leads found in the database."` — no header, counts or
sections are built, whatever the notes fetch returned. -/
theorem report_empty_leads (pu pk : Option String) (env : Env) (dn ds now : Int)
    (nf : FetchOutcome (List Note))
    (h1 : resolveCred pu env.SUPABASE_URL ≠ "")
    (h2 : resolveCred pk env.SUPABASE_KEY ≠ "") :
    reportExecute pu pk env dn ds now (.ok []) nf = .ok "No leads found in the database." := by
  rw [reportExecute.eq_def, reportResolve]
  simp [h1, h2]

theorem report_empty_leads_witness :
    reportExecute none none ⟨"u", "k"⟩ 10 7 0 (.ok []) .failure
      = .ok "No leads found in the database." :=
  report_empty_leads none none ⟨"u", "k"⟩ 10 7 0 .failure (by decide) (by decide)

/-! ### C10 -/

/-- C10: a query that strips and normalizes to the empty string (empty,
all whitespace, or consisting only of `"+91"`, spaces and hyphens)
matches every lead — the empty normalized query is a substring of every
normalized name — so with resolved credentials and a non-empty snapshot
the lookup takes the all-matches rendering path over the whole snapshot
instead of reporting `"No leads found matching …"`. -/
theorem empty_query_matches_all (su sk : Option String) (env : Env) (q : String)
    (now : Int) (leads : List Lead) (nf : FetchOutcome (List Note))
    (hq : normQuery (pyStrip q) = "")
    (h1 : env.SUPABASE_URL ≠ "") (h2 : env.SUPABASE_KEY ≠ "")
    (hl : leads ≠ []) :
    leads.filter (leadMatches (normQuery (pyStrip q))) = leads ∧
    lookupExecute su sk env q now (.ok leads) nf
      = renderLookup (pyStrip q) leads (notesMapL nf) now := by
  have hall : ∀ lead : Lead, leadMatches (normQuery (pyStrip q)) lead = true := by
    intro lead
    rw [hq]
    simp only [leadMatches, strContains, Bool.or_eq_true]
    exact Or.inl (by simpa using infixOfL_nil (normName lead).toList)
  have hfilter : leads.filter (leadMatches (normQuery (pyStrip q))) = leads :=
    List.filter_eq_self.mpr (fun a _ => hall a)
  refine ⟨hfilter, ?_⟩
  have hres : lookupResolve su sk env = .proceed env.SUPABASE_URL env.SUPABASE_KEY := by
    rw [lookupResolve, if_neg (by simp [h1, h2])]
  rw [lookupExecute.eq_def, hres]
  show (if (leads.filter (leadMatches (normQuery (pyStrip q)))).isEmpty
      then Except.ok ("No leads found matching '" ++ pyStrip q ++ "'.")
      else renderLookup (pyStrip q) (leads.filter (leadMatches (normQuery (pyStrip q))))
        (notesMapL nf) now)
    = renderLookup (pyStrip q) leads (notesMapL nf) now
  rw [hfilter]
  simp [List.isEmpty_iff, hl]

/-- A nonempty snapshot for the `empty_query_matches_all` witness. -/
def ldW10 : Lead := { lead_name := some "Any Name", mobile_number := some "12345" }

theorem empty_query_matches_all_witness :
    [ldW10].filter (leadMatches (normQuery (pyStrip " +91 - "))) = [ldW10] ∧
    lookupExecute none none ⟨"u", "k"⟩ " +91 - " 0 (.ok [ldW10]) .failure
      = renderLookup (pyStrip " +91 - ") [ldW10] (notesMapL .failure) 0 :=
  empty_query_matches_all none none ⟨"u", "k"⟩ " +91 - " 0 [ldW10] .failure
    (by decide) (by decide) (by decide) (by decide)

/-! ### C6 -/

/-- The normalization the spec claims is applied to the query AND to
every candidate's name and phone: lower-casing plus stripping `"+91"`,
spaces and hyphens (this definition follows the spec's words, for
comparison with the code's per-field normalizations). -/
def specNormalize (s : String) : String :=
  pyReplace (pyReplace (pyReplace (pyLower s) "+91" "") " " "") "-" ""

/-- C6 counterexample: for the query `"John Smith"` and a candidate
named `"John Smith"`, the spec's normalization makes the query match
(the normalized query IS a substring of the spec-normalized name), but
the code does not match: the code strips spaces from the query yet only
lowercases the candidate's name, so `"johnsmith"` is not a substring of
`"john smith"`. -/
theorem lookup_name_space_cex :
    leadMatches (normQuery "John Smith") { lead_name := some "John Smith" } = false ∧
    strContains (specNormalize "John Smith") (normQuery "John Smith") = true :=
  ⟨by decide, by decide⟩

/-- C6 (amended): the QUERY is lowercased and stripped of `"+91"`,
spaces and hyphens (exactly the spec's normalization), but a candidate's
NAME is only lowercased (spaces, hyphens and `"+91"` kept) and a
candidate's PHONE is only stripped (case kept); a candidate matches iff
the normalized query is a substring of that lowercased name or of that
stripped phone.  The phone example holds: query `"9876543210"` matches
a candidate whose phone is `"+91 98765-43210"`. -/
theorem lookup_match_amended (q : String) (lead : Lead) :
    normQuery q = specNormalize q ∧
    normName lead = pyLower (lead.lead_name.getD "") ∧
    normPhone lead = pyReplace (pyReplace (pyReplace
      (lead.mobile_number.getD "") "+91" "") " " "") "-" "" ∧
    leadMatches (normQuery q) lead
      = (strContains (normName lead) (normQuery q)
          || strContains (normPhone lead) (normQuery q)) ∧
    leadMatches (normQuery "9876543210")
      { mobile_number := some "+91 98765-43210" } = true :=
  ⟨rfl, rfl, rfl, rfl, by decide⟩
